import Mathlib

/-!
Verification of the deterministic planner agent core
(`app/agent/main_agent4`): a shallow embedding of the state model,
the normalizer (F01), the planner (F02), the dispatch router,
join/reduce (F13) and the synthesizer (F14), with theorems settling
the behavioural claims about them.

Python dictionaries are embedded as association lists with
first-match lookup and update-in-place-or-append assignment, which
matches insertion-ordered dicts with unique keys.  The dynamic Python
values are embedded as the inductive `Value`; `Value.pyTruthy`
mirrors Python truthiness and `Value.toIntKey` mirrors equality of a
dynamic value with an `int` dictionary key.
-/

namespace PlannerAgent

/-- Dynamic (JSON-like) value, embedding Python objects stored in
`outputs`, `params` and artifact slots. -/
inductive Value where
  | vnone : Value
  | vint : Int → Value
  | vbool : Bool → Value
  | vstr : String → Value
  | vdict : List (String × Value) → Value

/-- Python truthiness of a `Value` (`if v:`). -/
def Value.pyTruthy : Value → Bool
  | .vnone => false
  | .vint n => n != 0
  | .vbool b => b
  | .vstr s => s != ""
  | .vdict l => !l.isEmpty

/-- Embeds equality of a dynamic value with an `int` dictionary key
(Python `True == 1`, `False == 0`; other types never equal an int). -/
def Value.toIntKey : Value → Option Int
  | .vint n => some n
  | .vbool b => some (if b then 1 else 0)
  | _ => none

/-- First-match lookup in an association list (Python `d[k]` / `d.get(k)`
for dicts, whose keys are unique). -/
def alookup {α β : Type} [DecidableEq α] : List (α × β) → α → Option β
  | [], _ => none
  | (k, v) :: rest, key => if k = key then some v else alookup rest key

/-- Python `k in d`. -/
def acontains {α β : Type} [DecidableEq α] (l : List (α × β)) (k : α) : Bool :=
  (alookup l k).isSome

/-- Python `d[k] = v`: update the first occurrence in place, else append. -/
def aset {α β : Type} [DecidableEq α] : List (α × β) → α → β → List (α × β)
  | [], k, v => [(k, v)]
  | (k0, v0) :: rest, k, v =>
      if k0 = k then (k, v) :: rest else (k0, v0) :: aset rest k v

/-- Keys of an association list. -/
def akeys {α β : Type} (l : List (α × β)) : List α := l.map (·.1)

/-- A slot table: Python `dict[str, Any]`. -/
abbrev SlotMap := List (String × Value)

/-- Python `dict[int, dict[str, Any]]` (`completed_outputs`). -/
abbrev CompletedOutputs := List (Int × SlotMap)

inductive GoalType where
  | support | deliverable
  deriving DecidableEq, Repr

inductive SGStatus where
  | pending | success | failed
  deriving DecidableEq, Repr

inductive RStatus where
  | success | failed
  deriving DecidableEq, Repr

inductive MStatus where
  | planning | executing | done | failed
  deriving DecidableEq, Repr

inductive SynthMode where
  | narrative | display | hidden
  deriving DecidableEq, Repr

/-- `state.InputRef`: dependency pointer `{from_sub_goal, slot}`. -/
structure InputRef where
  from_sub_goal : Int
  slot : String
  deriving DecidableEq, Repr

/-- `state.SubGoal`. -/
structure SubGoal where
  id : Int
  worker : String
  description : String
  inputs : List (String × InputRef)
  params : SlotMap
  outputs : List String
  goal_type : GoalType
  status : SGStatus
  result : Option SlotMap
  error : Option String

/-- `state.WorkerResult`. -/
structure WorkerResult where
  sub_goal_id : Int
  status : RStatus
  outputs : SlotMap
  error : Option String
  message : Option String

/-- `state.WorkerInput`. -/
structure WorkerInput where
  sub_goal : SubGoal
  resolved_inputs : SlotMap

/-- `state.WorkerCapability` (registry entry). -/
structure WorkerCapability where
  name : String
  description : String
  preconditions : List String
  outputs : List String
  goal_type : GoalType
  memorable_slots : List String
  synthesis_mode : SynthMode

/-- `state.KeyArtifact`.  `intent` is kept as a `Value` because F13
stores `outputs.get("intent", ...)`, an arbitrary worker output. -/
structure KeyArtifact where
  atype : String
  sub_goal_id : Int
  turn_id : Int
  intent : Value
  slots : SlotMap

/-- `state.TurnSummary`. -/
structure TurnSummary where
  turn_id : Int
  human_message : String
  ai_response : String
  key_artifacts : Option (List KeyArtifact)

/-- `state.MainState`.  `key_artifacts` is the extra key F13 writes into
the returned state dict. -/
structure MainState where
  original_question : String
  question : String
  conversation_history : Option (List TurnSummary)
  sub_goals : List SubGoal
  completed_outputs : CompletedOutputs
  round : Int
  max_rounds : Int
  status : MStatus
  final_response : String
  planner_reasoning : String
  synthesis_inputs : Option (List (String × InputRef))
  worker_results : List WorkerResult
  key_artifacts : List KeyArtifact

/-- `state.worker_results_reducer`. -/
def worker_results_reducer (existing update : List WorkerResult) :
    List WorkerResult :=
  if update.isEmpty then [] else existing ++ update

/-- `state.create_sub_goal` (defaults: pending status, no result/error). -/
def create_sub_goal (id : Int) (worker description : String)
    (goal_type : GoalType) (inputs : List (String × InputRef))
    (params : SlotMap) (outputs : List String) : SubGoal :=
  { id := id, worker := worker, description := description,
    inputs := inputs, params := params, outputs := outputs,
    goal_type := goal_type, status := .pending,
    result := none, error := none }

/-- `state.get_pending_sub_goals`. -/
def get_pending_sub_goals (state : MainState) : List SubGoal :=
  state.sub_goals.filter (fun sg => sg.status == SGStatus.pending)

/-- `state.get_completed_deliverables`. -/
def get_completed_deliverables (state : MainState) : List SubGoal :=
  state.sub_goals.filter (fun sg =>
    sg.goal_type == GoalType.deliverable && sg.status == SGStatus.success)

/-- `worker_registry.WORKER_REGISTRY`: the nine capabilities registered
by the `@worker_tool` decorators, in module import order
(f04, f05, f06, f07, f08, f09, f10, f11, f12).  Defaults from the
decorator: `memorable_slots = []`, `synthesis_mode = hidden`. -/
def WORKER_REGISTRY : List WorkerCapability :=
  [ { name := "common_helpdesk",
      description := "Answers FAQ and general assistance questions",
      preconditions := ["user query is a common/general question"],
      outputs := ["answer"], goal_type := .deliverable,
      memorable_slots := [], synthesis_mode := .hidden },
    { name := "metadata_lookup",
      description := "Resolves entity names via LLM, then looks up field metadata and reference values from ES mappings",
      preconditions := ["has entity or reference to look up"],
      outputs := ["metadata_results", "value_results", "analysis_result"],
      goal_type := .support,
      memorable_slots := ["analysis_result"], synthesis_mode := .hidden },
    { name := "es_query_gen",
      description := "Generates search or aggregation ES query based on analysis_result.intent_type; signals needs_clarification if query cannot reliably cover user intent",
      preconditions := ["has metadata_results from metadata_lookup",
                        "has analysis_result with intent_type",
                        "needs_clarification=False from metadata_lookup"],
      outputs := ["es_query", "intent", "query_summary", "ambiguity",
                  "needs_clarification"],
      goal_type := .support,
      memorable_slots := ["es_query"], synthesis_mode := .hidden },
    { name := "es_query_exec",
      description := "Executes Elasticsearch queries",
      preconditions := ["has ES query"],
      outputs := ["es_results", "hit_count", "next_offset", "page_size"],
      goal_type := .support,
      memorable_slots := ["next_offset", "page_size"],
      synthesis_mode := .hidden },
    { name := "page_query",
      description := "Handles paginated ES queries with offset/limit",
      preconditions := ["prior_es_query is available in context (user referenced prior results or requested next page)"],
      outputs := ["page_results", "next_offset", "page_size", "es_query"],
      goal_type := .support,
      memorable_slots := ["es_query", "next_offset", "page_size"],
      synthesis_mode := .hidden },
    { name := "clarify_question",
      description := "Generates a markdown clarification message when planner detects ambiguity",
      preconditions := ["planner identified ambiguity requiring clarification"],
      outputs := ["clarification_message"], goal_type := .deliverable,
      memorable_slots := [], synthesis_mode := .hidden },
    { name := "explain_metadata",
      description := "Explains mapping fields and data structure to the user",
      preconditions := ["has metadata_results to explain"],
      outputs := ["explanation"], goal_type := .deliverable,
      memorable_slots := [], synthesis_mode := .hidden },
    { name := "show_results",
      description := "Template-based rendering of ES query results (no LLM)",
      preconditions := ["has es_results to display"],
      outputs := ["formatted_results"], goal_type := .deliverable,
      memorable_slots := [], synthesis_mode := .hidden },
    { name := "analyze_results",
      description := "Deep LLM analysis of query results — comparisons, trends, insights",
      preconditions := ["has es_results",
                       "user intent requires analysis beyond template display"],
      outputs := ["analysis"], goal_type := .deliverable,
      memorable_slots := [], synthesis_mode := .narrative } ]

/-- `worker_registry.get_capability_by_name`. -/
def get_capability_by_name (name : String) : Option WorkerCapability :=
  WORKER_REGISTRY.find? (fun cap => cap.name == name)

/-! ## Dispatch router (`graph.py`) -/

/-- `graph._is_sub_goal_ready`: every InputRef has its source in
`completed_outputs` and its slot in the stored mapping. -/
def is_sub_goal_ready (sub_goal : SubGoal) (state : MainState) : Bool :=
  sub_goal.inputs.all (fun nr =>
    match alookup state.completed_outputs nr.2.from_sub_goal with
    | some m => acontains m nr.2.slot
    | none => false)

/-- `graph._hydrate_worker_input`.  The Python function indexes
`completed_outputs[from_id][slot]` unguardedly and raises `KeyError`
when a lookup is missing; the `none` result embeds that raise. -/
def hydrate_worker_input (sub_goal : SubGoal) (state : MainState) :
    Option WorkerInput :=
  match hydrateInputs sub_goal.inputs state.completed_outputs with
  | some resolved => some { sub_goal := sub_goal, resolved_inputs := resolved }
  | none => none
where
  hydrateInputs : List (String × InputRef) → CompletedOutputs → Option SlotMap
    | [], _ => some []
    | (name, ref) :: rest, co =>
        match alookup co ref.from_sub_goal with
        | none => none
        | some m =>
            match alookup m ref.slot with
            | none => none
            | some v =>
                match hydrateInputs rest co with
                | none => none
                | some tail => some ((name, v) :: tail)

/-- Result of `graph.route_after_planner`: parallel Send() fan-out,
a node name, or END. -/
inductive Route where
  | sends : List WorkerInput → Route
  | joinReduce : Route
  | synthesizer : Route
  | finish : Route

/-- `graph.route_after_planner`. -/
def route_after_planner (state : MainState) : Route :=
  match state.status with
  | .executing =>
      let pending := get_pending_sub_goals state
      if pending.isEmpty then .joinReduce
      else
        let sends := (pending.filter (fun sg => is_sub_goal_ready sg state)
          ).filterMap (fun sg => hydrate_worker_input sg state)
        if sends.isEmpty then .joinReduce else .sends sends
  | .done => .synthesizer
  | _ => .finish

/-- The sub-goals dispatched by the router (empty unless fan-out happens). -/
def dispatched_sub_goals (state : MainState) : List SubGoal :=
  match route_after_planner state with
  | .sends l => l.map (·.sub_goal)
  | _ => []

/-! ## F13 Join/Reduce (`nodes/f13_join_reduce.py`) -/

/-- Merge the pagination slots of an F07 result into the first matching
es_query artifact (the in-place mutation in the bundling loop). -/
def mergeIntoBundle (next_offset page_size : Value) (k : Int) :
    List KeyArtifact → List KeyArtifact
  | [] => []
  | a :: rest =>
      if a.sub_goal_id == k && a.atype == "es_query" then
        { a with slots := aset (aset a.slots "next_offset" next_offset)
                            "page_size" page_size } :: rest
      else a :: mergeIntoBundle next_offset page_size k rest

/-- The artifact appended for one `es_query_exec` result in the second
pass of `_build_key_artifacts`. -/
def execArtifacts (r : WorkerResult) (turn_id : Int)
    (esQueryById : CompletedOutputs) (completed_outputs : CompletedOutputs)
    (params : SlotMap) (artifacts : List KeyArtifact) : List KeyArtifact :=
  let outputs := r.outputs
  let bundlesWith := alookup params "bundles_with_sub_goal"
  let bwTruthy := match bundlesWith with
    | some v => v.pyTruthy
    | none => false
  let bwKey : Option Int := bundlesWith.bind Value.toIntKey
  let nOff := (alookup outputs "next_offset").getD Value.vnone
  let pSize := (alookup outputs "page_size").getD Value.vnone
  let ids := toString r.sub_goal_id
  let intent := Value.vstr s!"query execution from sub_goal {ids}"
  match bwKey with
  | some k =>
      if bwTruthy && acontains esQueryById k then
        if artifacts.any (fun a =>
            a.sub_goal_id == k && a.atype == "es_query") then
          mergeIntoBundle nOff pSize k artifacts
        else
          -- the for/else branch: no matching artifact accumulated yet
          let genOutputs := (alookup esQueryById k).getD []
          artifacts ++ [{
            atype := "es_query", sub_goal_id := r.sub_goal_id,
            turn_id := turn_id, intent := intent,
            slots := [("es_query",
                        (alookup genOutputs "es_query").getD (Value.vdict [])),
                      ("next_offset", nOff), ("page_size", pSize)] }]
      else
        let esq : Value :=
          if bwTruthy then
            match alookup completed_outputs k with
            | some m => (alookup m "es_query").getD Value.vnone
            | none => Value.vnone
          else Value.vnone
        artifacts ++ [{
          atype := "es_query", sub_goal_id := r.sub_goal_id,
          turn_id := turn_id, intent := intent,
          slots := [("es_query", esq),
                    ("next_offset", nOff), ("page_size", pSize)] }]
  | none =>
      -- a non-int `bundles_with_sub_goal` can match no int key
      let esq : Value := Value.vnone
      artifacts ++ [{
        atype := "es_query", sub_goal_id := r.sub_goal_id,
        turn_id := turn_id, intent := intent,
        slots := [("es_query", esq),
                  ("next_offset", nOff), ("page_size", pSize)] }]

/-- Second pass of `_build_key_artifacts`: process one successful result
whose worker has non-empty `memorable_slots`. -/
def artifactStep (workerById : List (Int × String))
    (paramsById : List (Int × SlotMap)) (esQueryById : CompletedOutputs)
    (turn_id : Int) (completed_outputs : CompletedOutputs)
    (artifacts : List KeyArtifact) (r : WorkerResult) : List KeyArtifact :=
  if r.status != RStatus.success then artifacts
  else
    match alookup workerById r.sub_goal_id with
    | none => artifacts
    | some workerName =>
        if workerName == "" then artifacts
        else
          let memorable := match get_capability_by_name workerName with
            | some cap => cap.memorable_slots
            | none => []
          if memorable.isEmpty then artifacts
          else
            let outputs := r.outputs
            let params := (alookup paramsById r.sub_goal_id).getD []
            let ids := toString r.sub_goal_id
            if workerName == "es_query_gen" then
              let intent := (alookup outputs "intent").getD
                (Value.vstr s!"query from sub_goal {ids}")
              artifacts ++ [{
                atype := "es_query",
                sub_goal_id := r.sub_goal_id, turn_id := turn_id,
                intent := intent,
                slots := [("es_query",
                            (alookup outputs "es_query").getD (Value.vdict []))] }]
            else if workerName == "es_query_exec" then
              execArtifacts r turn_id esQueryById completed_outputs params artifacts
            else if workerName == "page_query" then
              artifacts ++ [{
                atype := "es_query",
                sub_goal_id := r.sub_goal_id, turn_id := turn_id,
                intent := Value.vstr
                  s!"pagination continuation from sub_goal {ids}",
                slots := [("es_query", (alookup outputs "es_query").getD Value.vnone),
                          ("next_offset",
                            (alookup outputs "next_offset").getD Value.vnone),
                          ("page_size",
                            (alookup outputs "page_size").getD Value.vnone)] }]
            else if workerName == "metadata_lookup" then
              artifacts ++ [{
                atype := "analysis_result",
                sub_goal_id := r.sub_goal_id, turn_id := turn_id,
                intent := Value.vstr "entity resolution",
                slots := [("analysis_result",
                            (alookup outputs "analysis_result").getD
                              (Value.vdict []))] }]
            else artifacts

/-- `JoinReduce._build_key_artifacts`. -/
def build_key_artifacts (worker_results : List WorkerResult)
    (sub_goals : List SubGoal) (turn_id : Int)
    (completed_outputs : CompletedOutputs) : List KeyArtifact :=
  let paramsById : List (Int × SlotMap) :=
    sub_goals.foldl (fun acc sg => aset acc sg.id sg.params) []
  let workerById : List (Int × String) :=
    sub_goals.foldl (fun acc sg => aset acc sg.id sg.worker) []
  -- first pass: collect es_query outputs of successful es_query_gen results
  let esQueryById : CompletedOutputs :=
    worker_results.foldl (fun acc r =>
      if r.status != RStatus.success then acc
      else
        match alookup workerById r.sub_goal_id with
        | some wn =>
            if wn != "es_query_gen" then acc
            else if acontains r.outputs "es_query" then
              aset acc r.sub_goal_id r.outputs
            else acc
        | none => acc) []
  -- second pass: build artifacts
  worker_results.foldl
    (artifactStep workerById paramsById esQueryById turn_id completed_outputs)
    []

/-- `JoinReduce.ainvoke`. -/
def join_reduce_ainvoke (state : MainState) : MainState :=
  let worker_results := state.worker_results
  let currentRound := state.round
  if worker_results.isEmpty then
    { state with
      round := currentRound + 1, status := .planning,
      worker_results := [], key_artifacts := [],
      planner_reasoning :=
        (let r := toString currentRound
         s!"F13 (round {r}): No worker results received") }
  else
    let resultsById : List (Int × WorkerResult) :=
      worker_results.foldl (fun acc r => aset acc r.sub_goal_id r) []
    let newSubGoals := state.sub_goals.map (fun sg =>
      match alookup resultsById sg.id with
      | some r =>
          { sg with
            status := (match r.status with
              | .success => SGStatus.success
              | .failed => SGStatus.failed),
            result := some r.outputs,
            error := r.error }
      | none => sg)
    let newCompleted := worker_results.foldl (fun acc r =>
      if r.status == RStatus.success then aset acc r.sub_goal_id r.outputs
      else acc) state.completed_outputs
    let keyArtifacts :=
      build_key_artifacts worker_results newSubGoals currentRound newCompleted
    let successCount :=
      (worker_results.filter (fun r => r.status == RStatus.success)).length
    let failedCount := worker_results.length - successCount
    { state with
      sub_goals := newSubGoals, completed_outputs := newCompleted,
      round := currentRound + 1, status := .planning,
      worker_results := [], key_artifacts := keyArtifacts,
      planner_reasoning :=
        (let r := toString currentRound
         let n := toString worker_results.length
         let s := toString successCount
         let f := toString failedCount
         s!"F13 (round {r}): Processed {n} results — {s} succeeded, {f} failed") }

/-! ## F14 Synthesizer (`nodes/f14_synthesizer.py`) -/

/-- `f14_synthesizer.PASSTHROUGH_KEYS`, in the order of the selection
loop over `["answer", "formatted_results", "analysis",
"clarification_message", "explanation"]`. -/
def PASSTHROUGH_KEYS : List String :=
  ["answer", "formatted_results", "analysis", "clarification_message",
   "explanation"]

/-- One selected deliverable output in the synthesizer loop. -/
structure Selection where
  sg_id : Int
  worker : String
  key : String
  mode : SynthMode
  value : Value

/-- The selection loop of `Synthesizer.ainvoke`: for each completed
deliverable, look up the synthesis_mode of the worker and the first
recognized passthrough slot present in its completed outputs.  Note the
loop reads only `completed_outputs` and the deliverable sub-goals; the
`synthesis_inputs` local is assigned but never used. -/
def synth_selections (state : MainState) : List Selection :=
  (get_completed_deliverables state).filterMap (fun sg =>
    let mode := match get_capability_by_name sg.worker with
      | some cap => cap.synthesis_mode
      | none => SynthMode.hidden
    let outputs := (alookup state.completed_outputs sg.id).getD []
    match PASSTHROUGH_KEYS.find? (fun k => acontains outputs k) with
    | none => none
    | some key => some {
        sg_id := sg.id, worker := sg.worker, key := key,
        mode := mode, value := (alookup outputs key).getD Value.vnone })

/-- The `(from_sub_goal, slot)` pairs whose values feed the final
response (narrative or display; hidden selections are dropped). -/
def synth_response_pairs (state : MainState) : List (Int × String) :=
  (synth_selections state).filterMap (fun sel =>
    if sel.mode == SynthMode.hidden then none else some (sel.sg_id, sel.key))

/-- Modelled from the spec for comparison (spec §4.8 input selection):
fallback scan over completed deliverables, first recognized
passthrough slot from each. -/
def spec_fallback_pairs (state : MainState) : List (Int × String) :=
  (get_completed_deliverables state).filterMap (fun sg =>
    (PASSTHROUGH_KEYS.find? (fun k =>
      acontains ((alookup state.completed_outputs sg.id).getD []) k)).map
      (fun k => (sg.id, k)))

/-- Modelled from the spec for comparison (spec §4.8 input selection):
if `synthesis_inputs` is present and non-empty, its `(from, slot)`
pairs are used; otherwise the fallback scan. -/
def spec_synthesis_pairs (state : MainState) : List (Int × String) :=
  match state.synthesis_inputs with
  | some l =>
      if !l.isEmpty then l.map (fun nr => (nr.2.from_sub_goal, nr.2.slot))
      else spec_fallback_pairs state
  | none => spec_fallback_pairs state

/-! ## F01 Normalizer (`nodes/f01_reiterate_intention.py`)

The LLM call is a collaborator; `ainvoke` is embedded as a function of
the state and the outcome of the call (`Except`: a raised exception or a
structured `ReiterateResult`). -/

/-- Structured output of the F01 LLM call. -/
structure ReiterateResult where
  main_goal : String
  reasoning : String
  user_query_text : Option String
  references_prior_results : Bool

/-- Scan of `reversed(history)` inside `_find_prior_agent_query`. -/
def findPriorFromTurns : List TurnSummary → Option SlotMap
  | [] => none
  | t :: rest =>
      match t.key_artifacts with
      | none => findPriorFromTurns rest
      | some arts =>
          if arts.isEmpty then findPriorFromTurns rest
          else
            match arts.find? (fun a => a.atype == "es_query") with
            | some a => some a.slots
            | none => findPriorFromTurns rest

/-- `f01_reiterate_intention._find_prior_agent_query`. -/
def find_prior_agent_query (history : Option (List TurnSummary)) :
    Option SlotMap :=
  match history with
  | none => none
  | some turns =>
      if turns.isEmpty then none else findPriorFromTurns turns.reverse

/-- A turn the `_find_prior_agent_query` scan skips: no key artifacts,
an empty artifact list, or no artifact of type `es_query`. -/
def turn_has_no_es_query (u : TurnSummary) : Bool :=
  match u.key_artifacts with
  | none => true
  | some arts =>
      arts.isEmpty
        || (arts.find? (fun a => a.atype == "es_query")).isNone

/-- The `user_es_query` slot written by `ainvoke` when the user
referenced a query (Python truthiness: the empty string is falsy). -/
def f01_user_slot (r : ReiterateResult) : SlotMap :=
  match r.user_query_text with
  | some t => if t ≠ "" then [("user_es_query", Value.vstr t)] else []
  | none => []

/-- The three `prior_*` slots written by `ainvoke` when the user
references prior results and a prior `es_query` artifact is found. -/
def f01_prior_slots (r : ReiterateResult)
    (history : Option (List TurnSummary)) : SlotMap :=
  if r.references_prior_results then
    match find_prior_agent_query history with
    | some pq =>
        [("prior_es_query", (alookup pq "es_query").getD Value.vnone),
         ("prior_next_offset", (alookup pq "next_offset").getD Value.vnone),
         ("prior_page_size", (alookup pq "page_size").getD Value.vnone)]
    | none => []
  else []

/-- The `completed_outputs_0` slot table built by `ainvoke`. -/
def f01_context (r : ReiterateResult)
    (history : Option (List TurnSummary)) : SlotMap :=
  f01_user_slot r ++ f01_prior_slots r history

/-- `ReiterateIntention.ainvoke`. -/
def reiterate_ainvoke (state : MainState)
    (llm : Except String ReiterateResult) : MainState :=
  if state.question = "" then
    { state with
      question := "",
      planner_reasoning := "F01: No user message provided" }
  else
    match llm with
    | .error e =>
        { state with
          planner_reasoning :=
            s!"F01: LLM failed ({e}), using original question" }
    | .ok r =>
        let mainGoal0 := r.main_goal.trim
        let mainGoal := if mainGoal0 = "" then state.question else mainGoal0
        { state with
          question := mainGoal,
          planner_reasoning := s!"F01: {r.reasoning}",
          completed_outputs := aset state.completed_outputs 0
            (f01_context r state.conversation_history) }

/-! ## F02 Planner (`nodes/f02_deterministic_planner.py`) -/

/-- Pydantic `PlannedInputRef`. -/
structure PlannedInputRef where
  from_sub_goal : Int
  slot : String

/-- Pydantic `PlannedSubGoal`. -/
structure PlannedSubGoal where
  worker : String
  description : String
  inputs : List (String × PlannedInputRef)
  params : SlotMap
  goal_type : GoalType

inductive PAction where
  | cont | done | failed
  deriving DecidableEq, Repr

/-- Pydantic `PlannerDecision`. -/
structure PlannerDecision where
  action : PAction
  reasoning : String
  sub_goals : List PlannedSubGoal
  synthesis_inputs : List (String × PlannedInputRef)

/-- `_next_sub_goal_id`: `max(ids) + 1`, or 1 when there are none. -/
def next_sub_goal_id (state : MainState) : Int :=
  match state.sub_goals with
  | [] => 1
  | sg :: rest => (rest.foldl (fun m g => max m g.id) sg.id) + 1

/-- The `existing_outputs` map of `_convert_planned_sub_goals`: for each
existing sub-goal, its runtime output slots when completed, else its
declared outputs; then every remaining `completed_outputs` key (id 0
included) with its stored slot names. -/
def existing_outputs_map (existing_sub_goals : List SubGoal)
    (completed_outputs : CompletedOutputs) : List (Int × List String) :=
  let base := existing_sub_goals.foldl (fun acc sg =>
    aset acc sg.id
      (match alookup completed_outputs sg.id with
       | some m => akeys m
       | none => sg.outputs)) []
  completed_outputs.foldl (fun acc kv =>
    if acontains acc kv.1 then acc else aset acc kv.1 (akeys kv.2)) base

/-- The `new_declared_outputs` map: registry-declared outputs for each
sub-goal being created in this batch. -/
def new_declared_outputs_map (planned : List PlannedSubGoal)
    (id_start : Int) : List (Int × List String) :=
  planned.enum.foldl (fun acc ip =>
    let declared := match get_capability_by_name ip.2.worker with
      | some cap => cap.outputs
      | none => []
    aset acc (id_start + (ip.1 : Int)) declared) []

/-- Membership in `valid_ids = existing_ids ∪ new_ids ∪ completed_ids`. -/
def is_valid_ref_id (existing_sub_goals : List SubGoal)
    (planned : List PlannedSubGoal) (id_start : Int)
    (completed_outputs : CompletedOutputs) (i : Int) : Bool :=
  existing_sub_goals.any (fun sg => sg.id == i)
    || (List.range planned.length).any (fun j => id_start + (j : Int) == i)
    || completed_outputs.any (fun kv => kv.1 == i)

/-- The `valid_slots` set consulted for a reference: `existing_outputs`
first, then `new_declared_outputs`, else empty. -/
def valid_slots_for (existingOutputs newDeclared : List (Int × List String))
    (i : Int) : List String :=
  match alookup existingOutputs i with
  | some s => s
  | none => (alookup newDeclared i).getD []

/-- The bad-id diagnostic of the InputRef loop,
`Invalid InputRef: sub_goal {from_id} does not exist`. -/
def invalid_id_msg (from_id : Int) : String :=
  let i := toString from_id
  s!"Invalid InputRef: sub_goal {i} does not exist"

/-- The bad-slot diagnostic of the InputRef loop,
`Invalid InputRef: slot \x27{slot}\x27 not found in sub_goal {from_id}`. -/
def invalid_slot_msg (slot : String) (from_id : Int) : String :=
  let i := toString from_id
  s!"Invalid InputRef: slot \x27{slot}\x27 not found in sub_goal {i}"

/-- The per-sub-goal InputRef loop: first failing reference wins, and
its error discards the inputs collected so far. -/
def checkPlannedInputs (validId : Int → Bool)
    (existingOutputs newDeclared : List (Int × List String)) :
    List (String × PlannedInputRef) → Except String (List (String × InputRef))
  | [] => .ok []
  | (name, ref) :: rest =>
      if !validId ref.from_sub_goal then
        .error (invalid_id_msg ref.from_sub_goal)
      else
        let validSlots :=
          valid_slots_for existingOutputs newDeclared ref.from_sub_goal
        if !validSlots.isEmpty && !validSlots.contains ref.slot then
          .error (invalid_slot_msg ref.slot ref.from_sub_goal)
        else
          match checkPlannedInputs validId existingOutputs newDeclared rest with
          | .ok tail =>
              .ok ((name, ⟨ref.from_sub_goal, ref.slot⟩) :: tail)
          | .error e => .error e

/-- Conversion of one planned sub-goal (body of the loop in
`_convert_planned_sub_goals`). -/
def convertOnePlanned (validId : Int → Bool)
    (existingOutputs newDeclared : List (Int × List String)) (id_start : Int)
    (ip : Nat × PlannedSubGoal) : SubGoal :=
  let p := ip.2
  let newId := id_start + (ip.1 : Int)
  let declared := match get_capability_by_name p.worker with
    | some cap => cap.outputs
    | none => []
  match checkPlannedInputs validId existingOutputs newDeclared p.inputs with
  | .ok inputs =>
      create_sub_goal newId p.worker p.description p.goal_type inputs
        p.params declared
  | .error e =>
      { create_sub_goal newId p.worker p.description p.goal_type [] p.params
          declared with
        status := .failed, error := some e }

/-- `_convert_planned_sub_goals`.  The source accumulates valid and
failed sub-goals in two lists and returns `result + failed_sub_goals`;
since the failed ones are exactly those created with `status = failed`,
this is the partition of the converted batch by status. -/
def convert_planned_sub_goals (planned : List PlannedSubGoal)
    (id_start : Int) (existing_sub_goals : List SubGoal)
    (completed_outputs : CompletedOutputs) : List SubGoal :=
  let validId :=
    is_valid_ref_id existing_sub_goals planned id_start completed_outputs
  let existingOutputs := existing_outputs_map existing_sub_goals completed_outputs
  let newDeclared := new_declared_outputs_map planned id_start
  let all := planned.enum.map
    (convertOnePlanned validId existingOutputs newDeclared id_start)
  all.filter (fun sg => sg.status != SGStatus.failed)
    ++ all.filter (fun sg => sg.status == SGStatus.failed)

/-- The budget-exhausted diagnostic of `DeterministicPlanner.ainvoke`. -/
def budget_exhausted_msg (max_rounds : Int) : String :=
  let m := toString max_rounds
  s!"F02: Exceeded max rounds ({m})"

/-- The empty-question diagnostic of `DeterministicPlanner.ainvoke`. -/
def no_question_msg : String := "F02: No question available"

/-- The no-op-guard diagnostic (continue decision without sub-goals). -/
def noop_guard_msg (reasoning : String) : String :=
  s!"F02: \x27continue\x27 with no sub-goals — {reasoning}"

/-- `DeterministicPlanner.ainvoke`, as a function of the state and the
LLM call outcome (exception or structured `PlannerDecision`). -/
def planner_ainvoke (state : MainState)
    (llm : Except String PlannerDecision) : MainState :=
  let currentRound := state.round
  let maxRounds := state.max_rounds
  if currentRound > maxRounds then
    { state with
      status := .failed,
      planner_reasoning := budget_exhausted_msg maxRounds }
  else if state.question = "" then
    { state with
      status := .failed,
      planner_reasoning := no_question_msg }
  else
    match llm with
    | .error e =>
        { state with
          status := .failed,
          planner_reasoning := s!"F02: Unexpected error — {e}" }
    | .ok decision =>
        match decision.action with
        | .cont =>
            if decision.sub_goals.isEmpty then
              { state with
                status := .failed,
                planner_reasoning := noop_guard_msg decision.reasoning }
            else
              let idStart := next_sub_goal_id state
              let newSubGoals := convert_planned_sub_goals decision.sub_goals
                idStart state.sub_goals state.completed_outputs
              { state with
                sub_goals := state.sub_goals ++ newSubGoals,
                status := .executing,
                round := currentRound,
                planner_reasoning :=
                  (let n := toString currentRound
                   let r := decision.reasoning
                   s!"F02 (round {n}): {r}") }
        | .done =>
            let validated := decision.synthesis_inputs.foldl
              (fun (acc : List (String × InputRef)) nr =>
                match alookup state.completed_outputs nr.2.from_sub_goal with
                | some m =>
                    if acontains m nr.2.slot then
                      acc ++ [(nr.1, ⟨nr.2.from_sub_goal, nr.2.slot⟩)]
                    else acc
                | none => acc) []
            { state with
              status := .done,
              synthesis_inputs := some validated,
              planner_reasoning :=
                (let n := toString currentRound
                 let r := decision.reasoning
                 s!"F02 (round {n}): {r}") }
        | .failed =>
            { state with
              status := .failed,
              planner_reasoning :=
                (let n := toString currentRound
                 let r := decision.reasoning
                 s!"F02 (round {n}): {r}") }

/-! ## Claim-level predicates -/

/-- The InputRef-soundness condition exactly as the claim states it:
the reference names a prior existing sub-goal with the slot in its slot
set (runtime outputs when completed, else its declared outputs), a
same-batch sibling with the slot among the declared (registry) outputs
of the sibling worker, or a `completed_outputs` key with the slot in
the stored mapping. -/
def claim_ref_ok (existing_sub_goals : List SubGoal)
    (planned : List PlannedSubGoal) (id_start : Int)
    (completed_outputs : CompletedOutputs) (ref : InputRef) : Bool :=
  existing_sub_goals.any (fun sg =>
      sg.id == ref.from_sub_goal &&
      (match alookup completed_outputs sg.id with
       | some m => acontains m ref.slot
       | none => sg.outputs.contains ref.slot))
    || planned.enum.any (fun ip =>
        (id_start + (ip.1 : Int) == ref.from_sub_goal) &&
        (match get_capability_by_name ip.2.worker with
         | some cap => cap.outputs.contains ref.slot
         | none => false))
    || (match alookup completed_outputs ref.from_sub_goal with
        | some m => acontains m ref.slot
        | none => false)

/-- The amended InputRef-soundness condition: the reference names a
member of valid_ids, and its slot is in the slot set of the source unless
that slot set is empty (the code skips the slot check when the source
contributes no slot information). -/
def amended_ref_ok (existing_sub_goals : List SubGoal)
    (planned : List PlannedSubGoal) (id_start : Int)
    (completed_outputs : CompletedOutputs) (ref : InputRef) : Bool :=
  is_valid_ref_id existing_sub_goals planned id_start completed_outputs
      ref.from_sub_goal
    && (let vs := valid_slots_for
          (existing_outputs_map existing_sub_goals completed_outputs)
          (new_declared_outputs_map planned id_start) ref.from_sub_goal
        vs.isEmpty || vs.contains ref.slot)

/-- The slot names F01 may write into `completed_outputs[0]` per the
spec (`force_execute` appears in the spec and tests but is never
written by the source). -/
def f01_context_slots : List String :=
  ["user_es_query", "prior_es_query", "prior_next_offset",
   "prior_page_size", "force_execute"]

/-- The outputs recorded for id `i` by the successful-result overlay of
one Join/Reduce round: the last successful result for `i`, if any. -/
def successOverlay : List WorkerResult → Int → Option SlotMap
  | [], _ => none
  | r :: rest, i =>
      match successOverlay rest i with
      | some o => some o
      | none =>
          if r.status == RStatus.success && r.sub_goal_id == i then
            some r.outputs
          else none

/-! ## Concrete scenario data for the claims -/

/-- A baseline state used to build the concrete scenarios. -/
def base_state : MainState :=
  { original_question := "q", question := "q",
    conversation_history := none, sub_goals := [],
    completed_outputs := [], round := 1, max_rounds := 10,
    status := .planning, final_response := "", planner_reasoning := "",
    synthesis_inputs := none, worker_results := [], key_artifacts := [] }

/-- C1 scenario: one completed deliverable (worker `analyze_results`)
whose outputs hold both `analysis` and `explanation`, with
`synthesis_inputs` naming `(1, explanation)`. -/
def c1_state : MainState :=
  { base_state with
    sub_goals := [{ create_sub_goal 1 "analyze_results" "analyze results"
        .deliverable [] [] ["analysis"] with status := .success }],
    completed_outputs :=
      [(1, [("analysis", Value.vstr "A"), ("explanation", Value.vstr "E")])],
    round := 2, status := .done,
    synthesis_inputs := some [("x", ⟨1, "explanation"⟩)] }

/-- C2 scenario: an `es_query_gen` result and an `es_query_exec` result
bundled to it via `params.bundles_with_sub_goal = 1`, in one batch. -/
def c2_r_gen : WorkerResult :=
  { sub_goal_id := 1, status := .success,
    outputs := [("es_query", Value.vdict [("match_all", Value.vdict [])]),
                ("intent", Value.vstr "find all shipments")],
    error := none, message := none }

def c2_r_exec : WorkerResult :=
  { sub_goal_id := 2, status := .success,
    outputs := [("next_offset", Value.vint 20), ("page_size", Value.vint 20)],
    error := none, message := none }

def c2_sub_goals : List SubGoal :=
  [create_sub_goal 1 "es_query_gen" "generate query" .support [] []
     ["es_query", "intent", "query_summary", "ambiguity",
      "needs_clarification"],
   create_sub_goal 2 "es_query_exec" "execute query" .support []
     [("bundles_with_sub_goal", Value.vint 1)]
     ["es_results", "hit_count", "next_offset", "page_size"]]

def c2_completed : CompletedOutputs :=
  [(1, c2_r_gen.outputs), (2, c2_r_exec.outputs)]

/-- C3 counterexample scenario: an existing sub-goal with no declared
outputs and no completed entry, referenced with a slot that is in no
slot set. -/
def c3_existing : SubGoal :=
  create_sub_goal 1 "mystery" "unknown prior goal" .support [] [] []

def c3_planned : PlannedSubGoal :=
  { worker := "show_results", description := "show",
    inputs := [("x", ⟨1, "whatever"⟩)], params := [],
    goal_type := .deliverable }

/-- C3 witness scenario: a planned sub-goal referencing the
nonexistent sub-goal 99 — converted to a failed sub-goal whose error
names the bad reference. -/
def c3w_bad_planned : PlannedSubGoal :=
  { worker := "show_results", description := "show",
    inputs := [("x", ⟨99, "es_results"⟩)], params := [],
    goal_type := .deliverable }

def c3w_bad_sub_goal : SubGoal :=
  { create_sub_goal 1 "show_results" "show" .deliverable [] []
      ["formatted_results"] with
    status := .failed, error := some (invalid_id_msg 99) }

/-- C4 counterexample scenario: empty `completed_outputs`, LLM raises. -/
def c4_state : MainState := { base_state with question := "hello" }

def c4_ok_result : ReiterateResult :=
  { main_goal := "find shipments", reasoning := "clear goal",
    user_query_text := none, references_prior_results := false }

/-- C8 scenario: the most recent turn carries an `es_query` artifact
with query, offset and page size. -/
def c8_artifact : KeyArtifact :=
  { atype := "es_query", sub_goal_id := 3, turn_id := 1,
    intent := Value.vstr "maersk shipments",
    slots := [("es_query", Value.vstr "Q"), ("next_offset", Value.vint 20),
              ("page_size", Value.vint 10)] }

def c8_turn : TurnSummary :=
  { turn_id := 1, human_message := "find maersk shipments",
    ai_response := "here are the results",
    key_artifacts := some [c8_artifact] }

def c8_result : ReiterateResult :=
  { main_goal := "show the next page", reasoning := "pagination request",
    user_query_text := none, references_prior_results := true }

/-- A more recent turn with no key artifacts: the prior-query scan
must skip over it to reach `c8_turn`. -/
def c8_turn2 : TurnSummary :=
  { turn_id := 2, human_message := "thanks",
    ai_response := "you are welcome", key_artifacts := none }

def c8_state : MainState :=
  { base_state with
    question := "show more",
    conversation_history := some [c8_turn, c8_turn2] }

/-- C6/C9 scenario: one ready pending sub-goal wired from a completed
output. -/
def c6_sub_goal : SubGoal :=
  create_sub_goal 5 "show_results" "render" .deliverable
    [("res", ⟨1, "es_results"⟩)] [] ["formatted_results"]

def c6_state : MainState :=
  { base_state with
    status := .executing, sub_goals := [c6_sub_goal],
    completed_outputs := [(1, [("es_results", Value.vstr "rows")])] }

/-- C5/C7/C10 concrete states for witnesses. -/
def c5_state : MainState :=
  { base_state with
    worker_results := [c2_r_gen, c2_r_exec],
    sub_goals := c2_sub_goals, completed_outputs := [(0, [])],
    status := .executing }

def c7_budget_state : MainState :=
  { base_state with round := 11, max_rounds := 10 }

def c7_decision : PlannerDecision :=
  { action := .cont, reasoning := "keep going", sub_goals := [],
    synthesis_inputs := [] }

/-! ## Helper lemmas -/

theorem alookup_aset_self {α β : Type} [DecidableEq α]
    (l : List (α × β)) (k : α) (v : β) :
    alookup (aset l k v) k = some v := by
  induction l with
  | nil => simp [aset, alookup]
  | cons hd tl ih =>
      by_cases h : hd.1 = k
      · simp [aset, h, alookup]
      · simp [aset, h, alookup, ih]

theorem alookup_aset_ne {α β : Type} [DecidableEq α]
    (l : List (α × β)) (k j : α) (v : β) (h : j ≠ k) :
    alookup (aset l k v) j = alookup l j := by
  induction l with
  | nil => simp [aset, alookup, Ne.symm h]
  | cons hd tl ih =>
      by_cases hk : hd.1 = k
      · subst hk
        simp [aset, alookup, Ne.symm h]
      · simp [aset, hk, alookup, ih]

theorem alookup_append {α β : Type} [DecidableEq α]
    (l1 l2 : List (α × β)) (k : α) :
    alookup (l1 ++ l2) k =
      match alookup l1 k with
      | some v => some v
      | none => alookup l2 k := by
  induction l1 with
  | nil => simp [alookup]
  | cons hd tl ih =>
      by_cases h : hd.1 = k
      · simp [alookup, h]
      · simp [alookup, h, ih]

/-! ## Claim C1 -/

/-- Claim C1 evidence: in `c1_state` the `synthesis_inputs` mapping is
present and non-empty and names `(1, explanation)`, yet the synthesizer
assembles the response from `(1, analysis)` — the first recognized
passthrough slot of the completed deliverable — because `ainvoke` reads
`synthesis_inputs` into a local that is never used.  The spec-modelled
selection yields `(1, explanation)`. -/
theorem c1_synthesizer_ignores_synthesis_inputs :
    c1_state.synthesis_inputs = some [("x", ⟨1, "explanation"⟩)]
      ∧ synth_response_pairs c1_state = [(1, "analysis")]
      ∧ spec_synthesis_pairs c1_state = [(1, "explanation")]
      ∧ synth_response_pairs c1_state ≠ spec_synthesis_pairs c1_state := by
  refine ⟨rfl, rfl, rfl, ?_⟩
  decide

/-! ## Claim C2 -/

/-- Claim C2 evidence: the two orders of the same two worker results
(a permutation, hence the same multiset) yield different artifact
lists: with the generation result first, one merged `es_query`
artifact; with the execution result first, two artifacts, because the
bundling loop only merges into artifacts already appended. -/
theorem c2_artifacts_depend_on_order :
    ([c2_r_exec, c2_r_gen] : List WorkerResult).Perm [c2_r_gen, c2_r_exec]
      ∧ (build_key_artifacts [c2_r_gen, c2_r_exec] c2_sub_goals 1
          c2_completed).length = 1
      ∧ (build_key_artifacts [c2_r_exec, c2_r_gen] c2_sub_goals 1
          c2_completed).length = 2
      ∧ (build_key_artifacts [c2_r_gen, c2_r_exec] c2_sub_goals 1
          c2_completed).map (fun a => (a.sub_goal_id, akeys a.slots))
          = [(1, ["es_query", "next_offset", "page_size"])]
      ∧ (build_key_artifacts [c2_r_exec, c2_r_gen] c2_sub_goals 1
          c2_completed).map (fun a => (a.sub_goal_id, akeys a.slots))
          = [(2, ["es_query", "next_offset", "page_size"]),
             (1, ["es_query"])] :=
  ⟨List.Perm.swap _ _ _, rfl, rfl, rfl, rfl⟩

/-! ## Claim C3 -/

/-- Claim C3 counterexample: the planned sub-goal references existing
sub-goal 1 with slot `whatever`; sub-goal 1 has no completed entry and
declares no outputs, so the slot is in no slot set under the claim
(`claim_ref_ok` is false), yet the sub-goal is created with status
`pending` and the reference kept — the code skips the slot check when
the slot set of the source is empty. -/
theorem c3_counterexample_empty_slot_set :
    (convert_planned_sub_goals [c3_planned] 2 [c3_existing] []).map
        (fun sg => sg.status) = [SGStatus.pending]
      ∧ (convert_planned_sub_goals [c3_planned] 2 [c3_existing] []).map
          (fun sg => sg.inputs.map (·.2))
          = [[(⟨1, "whatever"⟩ : InputRef)]]
      ∧ claim_ref_ok [c3_existing] [c3_planned] 2 [] ⟨1, "whatever"⟩
          = false :=
  ⟨rfl, rfl, rfl⟩

/-! ## Claim C4 -/

/-- Claim C4 counterexample: when the F01 LLM call raises,
`completed_outputs` is returned unchanged, so key 0 is absent (the
claim asserts key 0 is present for every outcome including a raised
exception); the error-fallback half of the claim does hold here: the
original question is kept and the status is untouched. -/
theorem c4_counterexample_error_drops_slot0 :
    alookup (reiterate_ainvoke c4_state (Except.error "boom")).completed_outputs
        0 = none
      ∧ (reiterate_ainvoke c4_state (Except.error "boom")).question
          = "hello"
      ∧ (reiterate_ainvoke c4_state (Except.error "boom")).status
          ≠ MStatus.failed :=
  ⟨rfl, rfl, by decide⟩

/-- Every reference accepted by the InputRef loop names a valid id and
passes the (possibly skipped) slot check. -/
theorem checkPlannedInputs_ok_refs (validId : Int → Bool)
    (eo nd : List (Int × List String)) :
    ∀ (l : List (String × PlannedInputRef)) (out : List (String × InputRef)),
    checkPlannedInputs validId eo nd l = Except.ok out →
    ∀ nr ∈ out,
      validId nr.2.from_sub_goal = true
        ∧ ((valid_slots_for eo nd nr.2.from_sub_goal).isEmpty
            || (valid_slots_for eo nd nr.2.from_sub_goal).contains nr.2.slot)
            = true := by
  intro l
  induction l with
  | nil =>
      intro out h nr hmem
      simp only [checkPlannedInputs, Except.ok.injEq] at h
      subst h
      simp at hmem
  | cons hd tl ih =>
      intro out h nr hmem
      simp only [checkPlannedInputs] at h
      cases h1 : validId hd.2.from_sub_goal with
      | false => rw [h1] at h; simp at h
      | true =>
          rw [h1] at h
          simp only [Bool.not_true, Bool.false_eq_true, if_false] at h
          cases h2 : ((valid_slots_for eo nd hd.2.from_sub_goal).isEmpty
              || (valid_slots_for eo nd hd.2.from_sub_goal).contains
                  hd.2.slot) with
          | false =>
              have h2a : (valid_slots_for eo nd hd.2.from_sub_goal).isEmpty
                  = false := by
                cases hx : (valid_slots_for eo nd hd.2.from_sub_goal).isEmpty
                · rfl
                · rw [hx] at h2; simp at h2
              have h2b : (valid_slots_for eo nd hd.2.from_sub_goal).contains
                  hd.2.slot = false := by
                cases hx : (valid_slots_for eo nd hd.2.from_sub_goal).contains
                    hd.2.slot
                · rfl
                · rw [hx] at h2; simp at h2
              rw [h2a, h2b] at h
              simp at h
          | true =>
              have h3 : (!(valid_slots_for eo nd hd.2.from_sub_goal).isEmpty
                  && !(valid_slots_for eo nd hd.2.from_sub_goal).contains
                      hd.2.slot) = false := by
                cases hx : (valid_slots_for eo nd hd.2.from_sub_goal).isEmpty
                · cases hy : (valid_slots_for eo nd
                      hd.2.from_sub_goal).contains hd.2.slot
                  · rw [hx, hy] at h2; simp at h2
                  · simp [hy]
                · simp [hx]
              rw [h3] at h
              simp only [Bool.false_eq_true, if_false] at h
              cases hrec : checkPlannedInputs validId eo nd tl with
              | error e => rw [hrec] at h; simp at h
              | ok tail =>
                  rw [hrec] at h
                  simp only [Except.ok.injEq] at h
                  subst h
                  rcases List.mem_cons.mp hmem with hh | ht
                  · subst hh
                    exact ⟨h1, h2⟩
                  · exact ih tail hrec nr ht

/-- Every reference rejected by the InputRef loop is reported by an
error message naming it: the nonexistent source id, or the missing
slot together with its source id; the named reference is among the
inputs of the sub-goal and indeed violates the check. -/
theorem checkPlannedInputs_error_refs (validId : Int → Bool)
    (eo nd : List (Int × List String)) :
    ∀ (l : List (String × PlannedInputRef)) (e : String),
    checkPlannedInputs validId eo nd l = Except.error e →
    ∃ nr ∈ l,
      (validId nr.2.from_sub_goal = false
        ∧ e = invalid_id_msg nr.2.from_sub_goal)
      ∨ (validId nr.2.from_sub_goal = true
        ∧ (valid_slots_for eo nd nr.2.from_sub_goal).isEmpty = false
        ∧ (valid_slots_for eo nd nr.2.from_sub_goal).contains nr.2.slot
            = false
        ∧ e = invalid_slot_msg nr.2.slot nr.2.from_sub_goal) := by
  intro l
  induction l with
  | nil =>
      intro e h
      simp [checkPlannedInputs] at h
  | cons hd tl ih =>
      intro e h
      simp only [checkPlannedInputs] at h
      cases h1 : validId hd.2.from_sub_goal with
      | false =>
          rw [h1] at h
          simp only [Bool.not_false, if_true, Except.error.injEq] at h
          exact ⟨hd, List.mem_cons_self hd tl, Or.inl ⟨h1, h.symm⟩⟩
      | true =>
          rw [h1] at h
          simp only [Bool.not_true, Bool.false_eq_true, if_false] at h
          cases h2a : (valid_slots_for eo nd hd.2.from_sub_goal).isEmpty with
          | false =>
              cases h2b : (valid_slots_for eo nd
                  hd.2.from_sub_goal).contains hd.2.slot with
              | false =>
                  rw [h2a, h2b] at h
                  simp only [Bool.not_false, Bool.and_self, if_true,
                    Except.error.injEq] at h
                  exact ⟨hd, List.mem_cons_self hd tl,
                    Or.inr ⟨h1, h2a, h2b, h.symm⟩⟩
              | true =>
                  rw [h2a, h2b] at h
                  simp only [Bool.not_false, Bool.not_true, Bool.and_false,
                    Bool.false_eq_true, if_false] at h
                  cases hrec : checkPlannedInputs validId eo nd tl with
                  | ok tail => rw [hrec] at h; simp at h
                  | error e2 =>
                      rw [hrec] at h
                      simp only [Except.error.injEq] at h
                      subst h
                      obtain ⟨nr, hnr, hcase⟩ := ih e2 hrec
                      exact ⟨nr, List.mem_cons_of_mem hd hnr, hcase⟩
          | true =>
              rw [h2a] at h
              simp only [Bool.not_true, Bool.false_and, Bool.false_eq_true,
                if_false] at h
              cases hrec : checkPlannedInputs validId eo nd tl with
              | ok tail => rw [hrec] at h; simp at h
              | error e2 =>
                  rw [hrec] at h
                  simp only [Except.error.injEq] at h
                  subst h
                  obtain ⟨nr, hnr, hcase⟩ := ih e2 hrec
                  exact ⟨nr, List.mem_cons_of_mem hd hnr, hcase⟩

/-- Claim C3 (amended): every InputRef in a sub-goal the planner
creates with status ≠ failed names a member of validIds, and its slot
is in the slot set of the source unless that slot set is empty (in which
case the slot check is skipped); non-failed sub-goals are created
pending, and a sub-goal with a rejected reference is created failed
with an error naming the bad reference — the recorded message embeds
the offending source id, or slot and source id, of a reference that
violates the amended condition — while valid sub-goals in the same
batch proceed normally. -/
theorem c3_inputref_validation (planned : List PlannedSubGoal)
    (id_start : Int) (existing : List SubGoal)
    (completed : CompletedOutputs) (sg : SubGoal)
    (hmem : sg ∈ convert_planned_sub_goals planned id_start existing
        completed) :
    (sg.status ≠ SGStatus.failed →
      sg.status = SGStatus.pending
        ∧ ∀ nr ∈ sg.inputs,
            amended_ref_ok existing planned id_start completed nr.2 = true)
    ∧ (sg.status = SGStatus.failed →
        ∃ ref : InputRef,
          amended_ref_ok existing planned id_start completed ref = false
            ∧ (sg.error = some (invalid_id_msg ref.from_sub_goal)
               ∨ sg.error
                   = some (invalid_slot_msg ref.slot ref.from_sub_goal))) := by
  unfold convert_planned_sub_goals at hmem
  have hall : sg ∈ planned.enum.map
      (convertOnePlanned
        (is_valid_ref_id existing planned id_start completed)
        (existing_outputs_map existing completed)
        (new_declared_outputs_map planned id_start) id_start) := by
    rcases List.mem_append.mp hmem with hm | hm
    · exact (List.mem_filter.mp hm).1
    · exact (List.mem_filter.mp hm).1
  rcases List.mem_map.mp hall with ⟨ip, _, heq⟩
  subst heq
  cases hchk : checkPlannedInputs
      (is_valid_ref_id existing planned id_start completed)
      (existing_outputs_map existing completed)
      (new_declared_outputs_map planned id_start) ip.2.inputs with
  | ok ins =>
      simp only [convertOnePlanned, hchk]
      refine ⟨fun _ => ⟨rfl, fun nr hnr => ?_⟩,
        fun hfail => by simp [create_sub_goal] at hfail⟩
      have hres := checkPlannedInputs_ok_refs
        (is_valid_ref_id existing planned id_start completed)
        (existing_outputs_map existing completed)
        (new_declared_outputs_map planned id_start)
        ip.2.inputs ins hchk nr hnr
      simp only [amended_ref_ok]
      rw [hres.1, hres.2]
      rfl
  | error e =>
      simp only [convertOnePlanned, hchk]
      refine ⟨fun hne => absurd rfl hne, fun _ => ?_⟩
      obtain ⟨nr, _, hcase⟩ := checkPlannedInputs_error_refs
        (is_valid_ref_id existing planned id_start completed)
        (existing_outputs_map existing completed)
        (new_declared_outputs_map planned id_start)
        ip.2.inputs e hchk
      refine ⟨⟨nr.2.from_sub_goal, nr.2.slot⟩, ?_, ?_⟩
      · rcases hcase with ⟨hv, -⟩ | ⟨hv, he1, he2, -⟩
        · simp only [amended_ref_ok]
          rw [hv]
          rfl
        · simp only [amended_ref_ok]
          rw [hv, he1, he2]
          rfl
      · rcases hcase with ⟨-, he⟩ | ⟨-, -, -, he⟩
        · exact Or.inl (by rw [he])
        · exact Or.inr (by rw [he])

/-- Claim C3 witness: a batch referencing the nonexistent sub-goal 99
— the converted sub-goal is failed and its recorded error names the
bad reference. -/
theorem c3_inputref_validation_witness :
    (c3w_bad_sub_goal.status ≠ SGStatus.failed →
      c3w_bad_sub_goal.status = SGStatus.pending
        ∧ ∀ nr ∈ c3w_bad_sub_goal.inputs,
            amended_ref_ok [] [c3w_bad_planned] 1 [] nr.2 = true)
    ∧ (c3w_bad_sub_goal.status = SGStatus.failed →
        ∃ ref : InputRef,
          amended_ref_ok [] [c3w_bad_planned] 1 [] ref = false
            ∧ (c3w_bad_sub_goal.error
                 = some (invalid_id_msg ref.from_sub_goal)
               ∨ c3w_bad_sub_goal.error
                   = some (invalid_slot_msg ref.slot ref.from_sub_goal))) :=
  c3_inputref_validation [c3w_bad_planned] 1 [] [] c3w_bad_sub_goal
    (by
      have h : convert_planned_sub_goals [c3w_bad_planned] 1 [] []
          = [c3w_bad_sub_goal] := rfl
      rw [h]
      exact List.mem_singleton_self c3w_bad_sub_goal)

/-- Every key F01 writes into slot 0 is one of the context slot names. -/
theorem f01_context_keys (r : ReiterateResult)
    (history : Option (List TurnSummary)) :
    ∀ kv ∈ f01_context r history, kv.1 ∈ f01_context_slots := by
  intro kv hkv
  unfold f01_context at hkv
  rcases List.mem_append.mp hkv with h1 | h2
  · cases hu : r.user_query_text with
    | none => simp [f01_user_slot, hu] at h1
    | some t =>
        simp only [f01_user_slot, hu] at h1
        by_cases ht : t ≠ ""
        · rw [if_pos ht] at h1
          rcases List.mem_singleton.mp h1 with rfl
          simp [f01_context_slots]
        · rw [if_neg ht] at h1; simp at h1
  · by_cases hr : r.references_prior_results
    · cases hf : find_prior_agent_query history with
      | none => simp [f01_prior_slots, hr, hf] at h2
      | some pq =>
          simp only [f01_prior_slots, hr, if_true, hf] at h2
          rcases List.mem_cons.mp h2 with rfl | h3
          · simp [f01_context_slots]
          rcases List.mem_cons.mp h3 with rfl | h4
          · simp [f01_context_slots]
          rcases List.mem_singleton.mp h4 with rfl
          simp [f01_context_slots]
    · simp [f01_prior_slots, hr] at h2

/-- Claim C4 (amended): when the question is non-empty and the F01 LLM
call returns a result (empty restatement included), key 0 is present
in `completed_outputs` and its slot set is a subset of the recognized
context slots; when the call raises, the incoming question, status and
`completed_outputs` are all preserved (so the turn is not failed, but
key 0 is only present if it already was); and on an empty question
`completed_outputs` and status are likewise unchanged for every
outcome of the call. -/
theorem c4_normalizer_contract (state : MainState) (r : ReiterateResult)
    (e : String) :
    (state.question ≠ "" →
      ∃ m, alookup (reiterate_ainvoke state
            (Except.ok r)).completed_outputs 0
          = some m ∧ ∀ kv ∈ m, kv.1 ∈ f01_context_slots)
    ∧ (state.question ≠ "" →
        (reiterate_ainvoke state (Except.error e)).question
            = state.question
          ∧ (reiterate_ainvoke state (Except.error e)).status
              = state.status
          ∧ (reiterate_ainvoke state (Except.error e)).completed_outputs
              = state.completed_outputs)
    ∧ (state.question = "" →
        (reiterate_ainvoke state (Except.ok r)).completed_outputs
            = state.completed_outputs
          ∧ (reiterate_ainvoke state (Except.error e)).completed_outputs
              = state.completed_outputs
          ∧ (reiterate_ainvoke state (Except.ok r)).status = state.status
          ∧ (reiterate_ainvoke state (Except.error e)).status
              = state.status) := by
  refine ⟨fun h => ⟨f01_context r state.conversation_history, ?_, ?_⟩,
    fun h => ⟨?_, ?_, ?_⟩, fun h => ⟨?_, ?_, ?_, ?_⟩⟩
  · simp only [reiterate_ainvoke, if_neg h]
    exact alookup_aset_self state.completed_outputs 0 _
  · exact f01_context_keys r state.conversation_history
  · simp only [reiterate_ainvoke, if_neg h]
  · simp only [reiterate_ainvoke, if_neg h]
  · simp only [reiterate_ainvoke, if_neg h]
  · simp only [reiterate_ainvoke, if_pos h]
  · simp only [reiterate_ainvoke, if_pos h]
  · simp only [reiterate_ainvoke, if_pos h]
  · simp only [reiterate_ainvoke, if_pos h]

/-- Claim C4 witness: the amended contract at a concrete state and
result. -/
theorem c4_normalizer_contract_witness :
    (c4_state.question ≠ "" →
      ∃ m, alookup (reiterate_ainvoke c4_state
            (Except.ok c4_ok_result)).completed_outputs 0
          = some m ∧ ∀ kv ∈ m, kv.1 ∈ f01_context_slots)
    ∧ (c4_state.question ≠ "" →
        (reiterate_ainvoke c4_state (Except.error "err")).question
            = c4_state.question
          ∧ (reiterate_ainvoke c4_state (Except.error "err")).status
              = c4_state.status
          ∧ (reiterate_ainvoke c4_state
              (Except.error "err")).completed_outputs
              = c4_state.completed_outputs)
    ∧ (c4_state.question = "" →
        (reiterate_ainvoke c4_state
            (Except.ok c4_ok_result)).completed_outputs
            = c4_state.completed_outputs
          ∧ (reiterate_ainvoke c4_state
              (Except.error "err")).completed_outputs
              = c4_state.completed_outputs
          ∧ (reiterate_ainvoke c4_state (Except.ok c4_ok_result)).status
              = c4_state.status
          ∧ (reiterate_ainvoke c4_state (Except.error "err")).status
              = c4_state.status) :=
  c4_normalizer_contract c4_state c4_ok_result "err"

/-- Lookup after the Join/Reduce success fold: the last successful
result for an id wins, other ids are untouched. -/
theorem alookup_join_fold (results : List WorkerResult) :
    ∀ (co : CompletedOutputs) (i : Int),
    alookup (results.foldl (fun acc r =>
        if r.status == RStatus.success then aset acc r.sub_goal_id r.outputs
        else acc) co) i =
      (match successOverlay results i with
       | some o => some o
       | none => alookup co i) := by
  induction results with
  | nil => intro co i; simp [successOverlay]
  | cons r rest ih =>
      intro co i
      simp only [List.foldl_cons]
      rw [ih]
      cases hrest : successOverlay rest i with
      | some o => simp [successOverlay, hrest]
      | none =>
          simp only [successOverlay, hrest]
          by_cases hs : r.status == RStatus.success
          · rw [if_pos hs, hs]
            by_cases hid : r.sub_goal_id = i
            · subst hid
              simp [alookup_aset_self]
            · rw [alookup_aset_ne co r.sub_goal_id i r.outputs
                (fun hh => hid hh.symm)]
              have : (r.sub_goal_id == i) = false := by
                simp [hid]
              simp [this]
          · have hs2 : (r.status == RStatus.success) = false := by
              cases hx : r.status == RStatus.success
              · rfl
              · exact absurd hx hs
            rw [if_neg hs, hs2]
            simp

/-- Claim C5: one Join/Reduce invocation drains `worker_results`;
`completed_outputs` afterwards is the prior mapping extended with
`id → outputs` for each successful result (the last one for an id when
several share it); and the reducer returns empty on an empty update,
else the concatenation. -/
theorem c5_join_reduce_drain (s : MainState) (i : Int)
    (existing update : List WorkerResult) :
    (join_reduce_ainvoke s).worker_results = []
    ∧ alookup (join_reduce_ainvoke s).completed_outputs i =
        (match successOverlay s.worker_results i with
         | some o => some o
         | none => alookup s.completed_outputs i)
    ∧ worker_results_reducer existing update =
        (if update.isEmpty then [] else existing ++ update) := by
  refine ⟨?_, ?_, rfl⟩
  · unfold join_reduce_ainvoke
    by_cases hw : s.worker_results.isEmpty
    · rw [if_pos hw]
    · rw [if_neg hw]
  · unfold join_reduce_ainvoke
    by_cases hw : s.worker_results.isEmpty
    · rw [if_pos hw]
      have hnil : s.worker_results = [] := by
        cases hx : s.worker_results
        · rfl
        · rw [hx] at hw; simp at hw
      rw [hnil]
      simp [successOverlay]
    · rw [if_neg hw]
      exact alookup_join_fold s.worker_results s.completed_outputs i

/-- Claim C5 witness: the drain contract at a concrete batch of two
successful results. -/
theorem c5_join_reduce_drain_witness :
    (join_reduce_ainvoke c5_state).worker_results = []
    ∧ alookup (join_reduce_ainvoke c5_state).completed_outputs 1 =
        (match successOverlay c5_state.worker_results 1 with
         | some o => some o
         | none => alookup c5_state.completed_outputs 1)
    ∧ worker_results_reducer [c2_r_gen] [] =
        (if ([] : List WorkerResult).isEmpty then []
         else [c2_r_gen] ++ []) :=
  c5_join_reduce_drain c5_state 1 [c2_r_gen] []

/-- Resolving every InputRef of a ready sub-goal succeeds, with one
entry per reference, in order. -/
theorem hydrateInputs_of_ready :
    ∀ (inputs : List (String × InputRef)) (co : CompletedOutputs),
    (inputs.all (fun nr =>
      match alookup co nr.2.from_sub_goal with
      | some m => acontains m nr.2.slot
      | none => false)) = true →
    ∃ m, hydrate_worker_input.hydrateInputs inputs co = some m
      ∧ m.map (·.1) = inputs.map (·.1) := by
  intro inputs
  induction inputs with
  | nil => intro co _; exact ⟨[], rfl, rfl⟩
  | cons hd tl ih =>
      intro co h
      simp only [List.all_cons, Bool.and_eq_true] at h
      obtain ⟨h1, h2⟩ := h
      cases hco : alookup co hd.2.from_sub_goal with
      | none => rw [hco] at h1; simp at h1
      | some m =>
          rw [hco] at h1
          obtain ⟨v, hv⟩ :=
            Option.isSome_iff_exists.mp (by simpa [acontains] using h1)
          obtain ⟨tailm, htail, hkeys⟩ := ih co h2
          refine ⟨(hd.1, v) :: tailm, ?_, ?_⟩
          · simp [hydrate_worker_input.hydrateInputs, hco, hv, htail]
          · simp [hkeys]

/-- A ready sub-goal hydrates to a `WorkerInput` carrying that
sub-goal, with resolved entries named exactly by its InputRefs. -/
theorem hydrate_of_ready (sg : SubGoal) (s : MainState)
    (h : is_sub_goal_ready sg s = true) :
    ∃ w, hydrate_worker_input sg s = some w ∧ w.sub_goal = sg
      ∧ w.resolved_inputs.map (·.1) = sg.inputs.map (·.1) := by
  unfold is_sub_goal_ready at h
  obtain ⟨m, hm, hk⟩ :=
    hydrateInputs_of_ready sg.inputs s.completed_outputs h
  refine ⟨{ sub_goal := sg, resolved_inputs := m }, ?_, rfl, hk⟩
  unfold hydrate_worker_input
  rw [hm]

/-- Whatever `hydrate_worker_input` returns carries the sub-goal it was
called on. -/
theorem hydrate_sub_goal_eq (sg : SubGoal) (s : MainState)
    (w : WorkerInput) (h : hydrate_worker_input sg s = some w) :
    w.sub_goal = sg := by
  unfold hydrate_worker_input at h
  cases hx : hydrate_worker_input.hydrateInputs sg.inputs s.completed_outputs
  · rw [hx] at h; exact absurd h (by simp)
  · rw [hx] at h
    simp only [Option.some.injEq] at h
    rw [← h]

/-- Claim C6: with status `executing`, a sub-goal is dispatched iff it
is a pending sub-goal of the plan whose every InputRef resolves in
`completed_outputs`; readiness depends only on `completed_outputs`
(not on sibling statuses); and when no pending sub-goal is ready the
router routes to Join/Reduce. -/
theorem c6_dispatch_characterization (s s2 : MainState) (sg : SubGoal)
    (h : s.status = MStatus.executing) :
    (sg ∈ dispatched_sub_goals s ↔
      sg ∈ s.sub_goals ∧ sg.status = SGStatus.pending
        ∧ is_sub_goal_ready sg s = true)
    ∧ (s2.completed_outputs = s.completed_outputs →
        is_sub_goal_ready sg s2 = is_sub_goal_ready sg s)
    ∧ ((∀ g ∈ s.sub_goals, g.status = SGStatus.pending →
          is_sub_goal_ready g s = false) →
        route_after_planner s = Route.joinReduce) := by
  refine ⟨?_, ?_, ?_⟩
  · unfold dispatched_sub_goals route_after_planner
    rw [h]
    by_cases hp : (get_pending_sub_goals s).isEmpty
    · rw [if_pos hp]
      simp only [List.not_mem_nil, false_iff]
      rintro ⟨hmem, hpend, -⟩
      have : sg ∈ get_pending_sub_goals s :=
        List.mem_filter.mpr ⟨hmem, by simp [hpend]⟩
      rw [List.isEmpty_iff] at hp
      rw [hp] at this
      exact List.not_mem_nil sg this
    · rw [if_neg hp]
      by_cases hs : (((get_pending_sub_goals s).filter
          (fun g => is_sub_goal_ready g s)).filterMap
          (fun g => hydrate_worker_input g s)).isEmpty
      · rw [if_pos hs]
        simp only [List.not_mem_nil, false_iff]
        rintro ⟨hmem, hpend, hready⟩
        obtain ⟨w, hw, -, -⟩ := hydrate_of_ready sg s hready
        have hmemf : sg ∈ (get_pending_sub_goals s).filter
            (fun g => is_sub_goal_ready g s) :=
          List.mem_filter.mpr
            ⟨List.mem_filter.mpr ⟨hmem, by simp [hpend]⟩, hready⟩
        have hws : w ∈ ((get_pending_sub_goals s).filter
            (fun g => is_sub_goal_ready g s)).filterMap
            (fun g => hydrate_worker_input g s) :=
          List.mem_filterMap.mpr ⟨sg, hmemf, hw⟩
        rw [List.isEmpty_iff] at hs
        rw [hs] at hws
        exact List.not_mem_nil w hws
      · rw [if_neg hs]
        constructor
        · intro hin
          obtain ⟨w, hwmem, hweq⟩ := List.mem_map.mp hin
          obtain ⟨g, hgmem, hgh⟩ := List.mem_filterMap.mp hwmem
          have hwg : w.sub_goal = g := hydrate_sub_goal_eq g s w hgh
          have hgsg : g = sg := by rw [← hweq, hwg]
          subst hgsg
          have hg2 := List.mem_filter.mp hgmem
          have hg3 := List.mem_filter.mp hg2.1
          refine ⟨hg3.1, ?_, hg2.2⟩
          have := hg3.2
          simpa using this
        · rintro ⟨hmem, hpend, hready⟩
          obtain ⟨w, hw, hwsg, -⟩ := hydrate_of_ready sg s hready
          exact List.mem_map.mpr ⟨w,
            List.mem_filterMap.mpr ⟨sg,
              List.mem_filter.mpr
                ⟨List.mem_filter.mpr ⟨hmem, by simp [hpend]⟩, hready⟩, hw⟩,
            hwsg⟩
  · intro h2
    unfold is_sub_goal_ready
    rw [h2]
  · intro hall
    unfold route_after_planner
    rw [h]
    by_cases hp : (get_pending_sub_goals s).isEmpty
    · rw [if_pos hp]
    · rw [if_neg hp]
      have hfil : (get_pending_sub_goals s).filter
          (fun g => is_sub_goal_ready g s) = [] := by
        rw [List.filter_eq_nil_iff]
        intro g hg
        have hg2 := List.mem_filter.mp hg
        have hpend : g.status = SGStatus.pending := by
          have := hg2.2
          simpa using this
        simp [hall g hg2.1 hpend]
      rw [hfil]
      rfl

/-- Claim C6 witness: the characterization at a concrete executing
state with one ready pending sub-goal. -/
theorem c6_dispatch_characterization_witness :
    (c6_sub_goal ∈ dispatched_sub_goals c6_state ↔
      c6_sub_goal ∈ c6_state.sub_goals
        ∧ c6_sub_goal.status = SGStatus.pending
        ∧ is_sub_goal_ready c6_sub_goal c6_state = true)
    ∧ (base_state.completed_outputs = c6_state.completed_outputs →
        is_sub_goal_ready c6_sub_goal base_state
          = is_sub_goal_ready c6_sub_goal c6_state)
    ∧ ((∀ g ∈ c6_state.sub_goals, g.status = SGStatus.pending →
          is_sub_goal_ready g c6_state = false) →
        route_after_planner c6_state = Route.joinReduce) :=
  c6_dispatch_characterization c6_state base_state c6_sub_goal rfl

/-- Claim C7: the planner fails the turn, recording the cause, when
the round budget is exceeded, when the question is empty, and when the
LLM decides continue with no proposed sub-goals. -/
theorem c7_planner_failure_modes (s : MainState)
    (llm : Except String PlannerDecision) (d : PlannerDecision) :
    (s.round > s.max_rounds →
      (planner_ainvoke s llm).status = MStatus.failed
        ∧ (planner_ainvoke s llm).planner_reasoning
            = budget_exhausted_msg s.max_rounds)
    ∧ (¬ s.round > s.max_rounds → s.question = "" →
        (planner_ainvoke s llm).status = MStatus.failed
          ∧ (planner_ainvoke s llm).planner_reasoning = no_question_msg)
    ∧ (¬ s.round > s.max_rounds → s.question ≠ "" →
        d.action = PAction.cont → d.sub_goals = [] →
        (planner_ainvoke s (Except.ok d)).status = MStatus.failed
          ∧ (planner_ainvoke s (Except.ok d)).planner_reasoning
              = noop_guard_msg d.reasoning) := by
  refine ⟨?_, ?_, ?_⟩
  · intro hb
    simp only [planner_ainvoke, if_pos hb]
    exact ⟨by trivial, by trivial⟩
  · intro hb hq
    simp only [planner_ainvoke, if_neg hb, if_pos hq]
    exact ⟨by trivial, by trivial⟩
  · intro hb hq hact hsub
    have hempty : d.sub_goals.isEmpty = true := by rw [hsub]; rfl
    simp only [planner_ainvoke, if_neg hb, if_neg hq, hact, hempty,
      if_true]
    exact ⟨by trivial, by trivial⟩

/-- Claim C7 witness: the failure modes at a concrete budget-exceeded
state and a concrete empty continue decision. -/
theorem c7_planner_failure_modes_witness :
    (c7_budget_state.round > c7_budget_state.max_rounds →
      (planner_ainvoke c7_budget_state
          (Except.ok c7_decision)).status = MStatus.failed
        ∧ (planner_ainvoke c7_budget_state
            (Except.ok c7_decision)).planner_reasoning
            = budget_exhausted_msg c7_budget_state.max_rounds)
    ∧ (¬ c7_budget_state.round > c7_budget_state.max_rounds →
        c7_budget_state.question = "" →
        (planner_ainvoke c7_budget_state
            (Except.ok c7_decision)).status = MStatus.failed
          ∧ (planner_ainvoke c7_budget_state
              (Except.ok c7_decision)).planner_reasoning = no_question_msg)
    ∧ (¬ c7_budget_state.round > c7_budget_state.max_rounds →
        c7_budget_state.question ≠ "" →
        c7_decision.action = PAction.cont → c7_decision.sub_goals = [] →
        (planner_ainvoke c7_budget_state
            (Except.ok c7_decision)).status = MStatus.failed
          ∧ (planner_ainvoke c7_budget_state
              (Except.ok c7_decision)).planner_reasoning
              = noop_guard_msg c7_decision.reasoning) :=
  c7_planner_failure_modes c7_budget_state (Except.ok c7_decision)
    c7_decision

/-- Turns with no `es_query` artifact are skipped by the prior-query
scan. -/
theorem findPriorFromTurns_skip :
    ∀ (l rest : List TurnSummary),
    (∀ u ∈ l, turn_has_no_es_query u = true) →
    findPriorFromTurns (l ++ rest) = findPriorFromTurns rest := by
  intro l
  induction l with
  | nil => intro rest _; rfl
  | cons u tl ih =>
      intro rest hall
      have hu := hall u (List.mem_cons_self u tl)
      have htl : ∀ v ∈ tl, turn_has_no_es_query v = true :=
        fun v hv => hall v (List.mem_cons_of_mem u hv)
      cases hk : u.key_artifacts with
      | none =>
          simp only [List.cons_append, findPriorFromTurns, hk]
          exact ih rest htl
      | some arts =>
          have hu2 : (arts.isEmpty
              || (arts.find? (fun a => a.atype == "es_query")).isNone)
              = true := by
            simpa [turn_has_no_es_query, hk] using hu
          simp only [List.cons_append, findPriorFromTurns, hk]
          cases he : arts.isEmpty with
          | true =>
              simp only [he, if_true]
              exact ih rest htl
          | false =>
              have hfn : arts.find? (fun a => a.atype == "es_query")
                  = none := by
                rw [he] at hu2
                simp only [Bool.false_or] at hu2
                exact Option.isNone_iff_eq_none.mp hu2
              simp only [he, Bool.false_eq_true, if_false, hfn]
              exact ih rest htl

/-- Claim C8: if the history decomposes as earlier turns, then a turn
`t`, then more recent turns none of which carries an `es_query`
artifact, the first `es_query`-typed artifact of `t` is the most
recent one; when that artifact has slots `es_query = q`,
`next_offset = k`, `page_size = p` and the normalizer detects a
prior-results reference, slot 0 afterwards holds `prior_es_query = q`,
`prior_next_offset = k`, `prior_page_size = p` (the scan runs
most-recent-first and skips artifactless turns). -/
theorem c8_pagination_roundtrip (s : MainState) (r : ReiterateResult)
    (ts : List TurnSummary) (t : TurnSummary) (ts2 : List TurnSummary)
    (arts : List KeyArtifact)
    (a : KeyArtifact) (q k p : Value)
    (hq : s.question ≠ "")
    (hh : s.conversation_history = some (ts ++ t :: ts2))
    (hskip : ∀ u ∈ ts2, turn_has_no_es_query u = true)
    (ha : t.key_artifacts = some arts)
    (hfind : arts.find? (fun x => x.atype == "es_query") = some a)
    (hQ : alookup a.slots "es_query" = some q)
    (hK : alookup a.slots "next_offset" = some k)
    (hP : alookup a.slots "page_size" = some p)
    (hr : r.references_prior_results = true) :
    ∃ m, alookup (reiterate_ainvoke s (Except.ok r)).completed_outputs 0
        = some m
      ∧ alookup m "prior_es_query" = some q
      ∧ alookup m "prior_next_offset" = some k
      ∧ alookup m "prior_page_size" = some p := by
  have harts : arts.isEmpty = false := by
    cases arts
    · simp [List.find?] at hfind
    · rfl
  have hskip2 : ∀ u ∈ ts2.reverse, turn_has_no_es_query u = true :=
    fun u hu => hskip u (List.mem_reverse.mp hu)
  have hfp : find_prior_agent_query s.conversation_history
      = some a.slots := by
    have hne : ((ts ++ t :: ts2).isEmpty) = false := by simp
    have hrev : (ts ++ t :: ts2).reverse
        = ts2.reverse ++ (t :: ts.reverse) := by simp
    rw [hh]
    simp only [find_prior_agent_query, hne, Bool.false_eq_true, if_false,
      hrev, findPriorFromTurns_skip ts2.reverse (t :: ts.reverse) hskip2]
    simp [findPriorFromTurns, ha, harts, hfind]
  have husr : ∀ key, key ≠ "user_es_query" →
      alookup (f01_user_slot r) key = none := by
    intro key hkey
    unfold f01_user_slot
    cases r.user_query_text with
    | none => rfl
    | some t0 =>
        show alookup
          (if t0 ≠ "" then [("user_es_query", Value.vstr t0)] else [])
          key = none
        by_cases ht : t0 ≠ ""
        · rw [if_pos ht]
          simp [alookup, Ne.symm hkey]
        · rw [if_neg ht]
          rfl
  have hctx : f01_context r s.conversation_history
      = f01_user_slot r ++
        [("prior_es_query", q), ("prior_next_offset", k),
         ("prior_page_size", p)] := by
    unfold f01_context f01_prior_slots
    rw [hr, hfp]
    simp [hQ, hK, hP]
  refine ⟨f01_context r s.conversation_history, ?_, ?_, ?_, ?_⟩
  · simp only [reiterate_ainvoke, if_neg hq]
    exact alookup_aset_self s.completed_outputs 0 _
  · rw [hctx, alookup_append, husr "prior_es_query" (by decide)]
    rfl
  · rw [hctx, alookup_append, husr "prior_next_offset" (by decide)]
    rfl
  · rw [hctx, alookup_append, husr "prior_page_size" (by decide)]
    rfl

/-- Claim C8 witness: the round-trip at a concrete two-turn history
whose older turn carries the `es_query` artifact and whose newer turn
carries no artifacts and is skipped. -/
theorem c8_pagination_roundtrip_witness :
    ∃ m, alookup (reiterate_ainvoke c8_state
          (Except.ok c8_result)).completed_outputs 0 = some m
      ∧ alookup m "prior_es_query" = some (Value.vstr "Q")
      ∧ alookup m "prior_next_offset" = some (Value.vint 20)
      ∧ alookup m "prior_page_size" = some (Value.vint 10) :=
  c8_pagination_roundtrip c8_state c8_result [] c8_turn [c8_turn2]
    [c8_artifact] c8_artifact (Value.vstr "Q") (Value.vint 20)
    (Value.vint 10) (by decide) rfl
    (by
      intro u hu
      rw [List.mem_singleton] at hu
      subst hu
      rfl)
    rfl rfl rfl rfl rfl rfl

/-- Claim C9: for a sub-goal the router judges ready, hydration is
total — every `completed_outputs[from][slot]` lookup is defined — and
the resulting `WorkerInput` carries the sub-goal and exactly one
resolved entry per declared InputRef, under the same names in the same
order. -/
theorem c9_hydration_total (sg : SubGoal) (s : MainState)
    (h : is_sub_goal_ready sg s = true) :
    ∃ w, hydrate_worker_input sg s = some w ∧ w.sub_goal = sg
      ∧ w.resolved_inputs.map (·.1) = sg.inputs.map (·.1)
      ∧ w.resolved_inputs.length = sg.inputs.length := by
  obtain ⟨w, hw, hwsg, hkeys⟩ := hydrate_of_ready sg s h
  refine ⟨w, hw, hwsg, hkeys, ?_⟩
  have := congrArg List.length hkeys
  simpa using this

/-- Claim C9 witness: hydration of a concrete ready sub-goal. -/
theorem c9_hydration_total_witness :
    ∃ w, hydrate_worker_input c6_sub_goal c6_state = some w
      ∧ w.sub_goal = c6_sub_goal
      ∧ w.resolved_inputs.map (·.1) = c6_sub_goal.inputs.map (·.1)
      ∧ w.resolved_inputs.length = c6_sub_goal.inputs.length :=
  c9_hydration_total c6_sub_goal c6_state rfl

/-- Claim C10: Join/Reduce overwrites `key_artifacts` with exactly the
artifacts built from the worker results of this round — the empty list when
there are none — regardless of the artifacts already in the state, so
artifacts of earlier rounds are not carried forward. -/
theorem c10_artifacts_overwritten (s : MainState)
    (ka : List KeyArtifact) :
    ((join_reduce_ainvoke { s with key_artifacts := ka }).key_artifacts
        = (join_reduce_ainvoke s).key_artifacts)
    ∧ (s.worker_results = [] →
        (join_reduce_ainvoke s).key_artifacts = [])
    ∧ (join_reduce_ainvoke s).key_artifacts
        = build_key_artifacts s.worker_results
            (join_reduce_ainvoke s).sub_goals s.round
            (join_reduce_ainvoke s).completed_outputs := by
  unfold join_reduce_ainvoke
  by_cases hw : s.worker_results.isEmpty
  · have hnil : s.worker_results = [] := by
      cases hx : s.worker_results
      · rfl
      · rw [hx] at hw; simp at hw
    refine ⟨?_, fun _ => ?_, ?_⟩
    · simp only [if_pos hw]
    · simp only [if_pos hw]
    · simp only [if_pos hw]
      rw [hnil]
      rfl
  · refine ⟨?_, fun hc => absurd hc (by
        intro hx; rw [hx] at hw; simp at hw), ?_⟩
    · simp only [if_neg hw]
    · simp only [if_neg hw]

/-- Claim C10 witness: the overwrite contract at a concrete state with
stale artifacts and a non-empty batch. -/
theorem c10_artifacts_overwritten_witness :
    ((join_reduce_ainvoke { c5_state with
        key_artifacts := [c8_artifact] }).key_artifacts
        = (join_reduce_ainvoke c5_state).key_artifacts)
    ∧ (c5_state.worker_results = [] →
        (join_reduce_ainvoke c5_state).key_artifacts = [])
    ∧ (join_reduce_ainvoke c5_state).key_artifacts
        = build_key_artifacts c5_state.worker_results
            (join_reduce_ainvoke c5_state).sub_goals c5_state.round
            (join_reduce_ainvoke c5_state).completed_outputs :=
  c10_artifacts_overwritten c5_state [c8_artifact]

end PlannerAgent
